import Mathlib

/-!
Verification of the crosswordApp backend (src/Backend/app.py,
src/Backend/grid_extractor.py, src/Backend/scraper.py) against its
natural-language specification.

The Python sources are shallowly embedded: pure functions become Lean
functions; network, OpenCV and HTML-parsing effects are abstracted into
explicit environment records whose fields stand for the outcomes of the
corresponding library calls; Python exceptions become `Except` or `Option`
values; Python dictionaries become insertion-ordered association lists with
overwrite-in-place update.  Machine arithmetic is not involved: all the
integers handled by this code are small Python ints, embedded as `Nat`/`Int`.
-/

/- ===================================================================
   Generic helpers mirroring Python primitives (character level).
   Only the ASCII fragment relevant to this code base is modelled; the
   comments on each definition name the Python construct it embeds.
   =================================================================== -/

/-- Whitespace test used by Python `str.strip()` and the regex class `\s`
(space, tab, newline, carriage return, vertical tab, form feed, and the
no-break space U+00A0, which Python 3 treats as whitespace). -/
def pyIsSpace (c : Char) : Bool :=
  c = ' ' || c = '\t' || c = '\n' || c = '\r' ||
  c = '\x0b' || c = '\x0c' || c = '\u00A0'

/-- Python `str.strip()` on a character list: drop whitespace from both ends. -/
def pyStrip (l : List Char) : List Char :=
  ((l.dropWhile pyIsSpace).reverse.dropWhile pyIsSpace).reverse

/-- Python substring membership `pat in s`: `pat` occurs contiguously in `s`. -/
def substrIn (pat : List Char) : List Char → Bool
  | [] => pat.isEmpty
  | c :: rest => pat.isPrefixOf (c :: rest) || substrIn pat rest

/-- Return the first `some` produced by `f` along a list, in order.  Used to
embed the priority order of regex backtracking alternatives. -/
def firstSome {α β : Type} (f : α → Option β) : List α → Option β
  | [] => none
  | x :: xs => match f x with
    | some r => some r
    | none => firstSome f xs

/-- Python `int(...)` on a nonempty string of decimal digits. -/
def digitsToNat (cs : List Char) : Nat :=
  cs.foldl (fun n c => n * 10 + (c.toNat - ('0').toNat)) 0

/- ===================================================================
   Embedding of src/Backend/grid_extractor.py
   =================================================================== -/

/-- Source, grid_extractor.py lines 6-7:
`def get_default_grid(): return [[1 for _ in range(15)] for _ in range(15)]`. -/
def get_default_grid : List (List Int) :=
  (List.range 15).map (fun _ => (List.range 15).map (fun _ => (1 : Int)))

/-- Source, grid_extractor.py line 77: `target_size = 750 # 15 * 50px per cell`,
the side of the square canvas the crop is resized to. -/
def target_size : Nat := 750

/-- Source, grid_extractor.py line 84: `cell_size = target_size // 15`. -/
def cell_size : Nat := target_size / 15

/-- Source, grid_extractor.py lines 9-130, `process_grid_image(image_url)`.
The function takes a single parameter.  The whole of the OpenCV try block
(download, `imdecode`, thresholding, contour search, crop, resize, per-cell
sampling) is abstracted into one environment value `cv`:
`none` models any exception raised inside the `try` (HTTP error from
`raise_for_status`, `imdecode` returning `None` for an undecodable payload,
or any other cv2 failure), which the handler at lines 126-130 catches before
returning the default grid; `some dark` models a run that reaches the
sampling loop, where `dark r c` is the sampled decision `avg_val < 60` for
cell `(r, c)` of the resized crop (the contour-vs-center-crop choice only
changes which pixels are sampled, that is, which `dark` is realised, never
the shape of the output).  `image_url` is `Option String` because the caller
may pass Python `None`; `none` and the empty string are falsy for the
`if not image_url` guard at line 10.  Lines 83-84 hardcode
`rows, cols = 15, 15`; the matrix is built by appending exactly as the
nested loop of lines 89-118 does. -/
def process_grid_image (cv : Option (Nat → Nat → Bool)) (image_url : Option String) :
    List (List Int) :=
  match image_url with
  | none => get_default_grid
  | some url =>
    if url = "" then get_default_grid
    else
      match cv with
      | none => get_default_grid
      | some dark =>
        let rows := 15
        let cols := 15
        (List.range rows).foldl
          (fun grid_matrix r =>
            grid_matrix ++
              [(List.range cols).foldl
                (fun row_data c =>
                  row_data ++ [if dark r c then (0 : Int) else 1]) []])
          []

/-- Python indexing `grid_matrix[r][c]` with `r`, `c` natural numbers, as the
fallible operation it is (an out-of-range index raises `IndexError`). -/
def cellAt (M : List (List Int)) (r c : Nat) : Option Int :=
  (M[r]?).bind (fun row => row[c]?)

/-- Total view of a cell used by the declarative characterisation: the cell
value when in bounds, `0` when out of bounds. -/
def cellD (M : List (List Int)) (r c : Nat) : Int :=
  (cellAt M r c).getD 0

/-- Source, grid_extractor.py lines 138-145: the body of the numbering loop at
one cell `(r, c)`, threading the failure of any index operation.  Mirrors
`if grid_matrix[r][c] == 0: continue`, the short-circuiting
`is_across = (c == 0 or grid_matrix[r][c-1] == 0)`,
`is_down = (r == 0 or grid_matrix[r-1][c] == 0)`, and the conditional
insertion `numbers[f"..."] = counter; counter += 1`, with the dictionary as an
insertion-ordered association list (each key `(r, c)` is visited once, so no
overwrite can occur). -/
def numberStep (M : List (List Int)) (st : Option (Nat × List (String × Nat)))
    (rc : Nat × Nat) : Option (Nat × List (String × Nat)) :=
  match st with
  | none => none
  | some (counter, numbers) =>
    match cellAt M rc.1 rc.2 with
    | none => none
    | some v =>
      if v = 0 then some (counter, numbers)
      else
        match (if rc.2 = 0 then some true
               else (cellAt M rc.1 (rc.2 - 1)).map (fun w => w == 0)) with
        | none => none
        | some is_across =>
          match (if rc.1 = 0 then some true
                 else (cellAt M (rc.1 - 1) rc.2).map (fun w => w == 0)) with
          | none => none
          | some is_down =>
            if is_across || is_down then
              some (counter + 1,
                numbers ++ [(toString rc.1 ++ "," ++ toString rc.2, counter)])
            else some (counter, numbers)

/-- Source, grid_extractor.py lines 133-146, `generate_numbering(grid_matrix)`.
`rows = len(grid_matrix)`; `cols = len(grid_matrix[0])` raises `IndexError`
on an empty outer list, which the `none` branch records; then the counter
starts at 1 and the nested `for r in range(rows): for c in range(cols)` loop
runs `numberStep` in row-major order. -/
def generate_numbering (M : List (List Int)) : Option (List (String × Nat)) :=
  match M[0]? with
  | none => none
  | some row0 =>
    ((List.range M.length).foldl
      (fun st r =>
        (List.range row0.length).foldl (fun st2 c => numberStep M st2 (r, c)) st)
      (some (1, []))).map Prod.snd

/-- The dictionary key `f"{r},{c}"` built at grid_extractor.py line 144. -/
def keyOf (r c : Nat) : String := toString r ++ "," ++ toString c

/-- All cell coordinates of a `rows × cols` grid in row-major scan order. -/
def rowMajorCells (rows cols : Nat) : List (Nat × Nat) :=
  (List.range rows).flatMap (fun r => (List.range cols).map (fun c => (r, c)))

/-- Declarative version of the condition under which the numbering loop
assigns a number to cell `rc`: the cell is playable (nonzero) and starts an
across run (leftmost column, or blocked cell to the left) or a down run
(top row, or blocked cell above). -/
def startsEntry (M : List (List Int)) (rc : Nat × Nat) : Bool :=
  cellD M rc.1 rc.2 != 0 &&
    ((rc.2 == 0 || cellD M rc.1 (rc.2 - 1) == 0) ||
     (rc.1 == 0 || cellD M (rc.1 - 1) rc.2 == 0))

/-- The cells that receive a number, in row-major scan order. -/
def qualCells (M : List (List Int)) : List (Nat × Nat) :=
  (rowMajorCells M.length (M.getD 0 []).length).filter (startsEntry M)

/-- Number a list of cells consecutively starting from `k`. -/
def numberFrom (k : Nat) : List (Nat × Nat) → List (String × Nat)
  | [] => []
  | rc :: rest => (keyOf rc.1 rc.2, k) :: numberFrom (k + 1) rest

/- ===================================================================
   Embedding of src/Backend/scraper.py : extract_data_from_html
   =================================================================== -/

/-- One HTML img element as seen by the extractor: the `src` and `data-src`
attributes (absent = Python `None`) and the declared numeric `width`
attribute (scraper.py line 91 reads `int(img.get('width') or 0)`; absent is
modelled as `none` and becomes 0). -/
structure ImgTag where
  src : Option String
  data_src : Option String
  width : Option Int
deriving DecidableEq

/-- Python `a or b` on two optional strings, where `None` and the empty
string are falsy: scraper.py line 86 `img.get('src') or img.get('data-src')`. -/
def pyOrStr (a b : Option String) : Option String :=
  match a with
  | none => b
  | some s => if s = "" then b else some s

/-- Declarative candidate of one img element: `none` when the element is
skipped (no usable source string, or the source contains `pixel` or `icon`,
scraper.py line 87), otherwise the scored pair of scraper.py lines 89-94:
+50 when the lower-cased source contains `grid` or `crossword`, +20 when the
declared width exceeds 200. -/
def candOf (img : ImgTag) : Option (Int × String) :=
  match pyOrStr img.src img.data_src with
  | none => none
  | some src =>
    if src = "" || substrIn "pixel".toList src.toList
        || substrIn "icon".toList src.toList then none
    else
      some ((if substrIn "grid".toList (src.toList.map Char.toLower)
                || substrIn "crossword".toList (src.toList.map Char.toLower)
             then (50 : Int) else 0) +
            (if img.width.getD 0 > 200 then (20 : Int) else 0),
            src)

/-- Source, scraper.py lines 83-94: the candidate-collecting loop, appending
`(score, src)` for every img element that is not skipped. -/
def imageCandidates (imgs : List ImgTag) : List (Int × String) :=
  imgs.foldl
    (fun candidates img =>
      match candOf img with
      | none => candidates
      | some c => candidates ++ [c])
    []

/-- Stable descending insertion by score: an element is placed before the
first element whose score is strictly smaller, so earlier elements stay in
front of later elements with an equal score. -/
def insertDesc (c : Int × String) : List (Int × String) → List (Int × String)
  | [] => [c]
  | b :: bs => if c.1 ≥ b.1 then c :: b :: bs else b :: insertDesc c bs

/-- Source, scraper.py line 96: `candidates.sort(key=lambda x: x[0],
reverse=True)`.  Python list.sort is a stable sort; a stable
descending-by-score sort has a unique result, here realised by stable
insertion. -/
def sortDesc : List (Int × String) → List (Int × String)
  | [] => []
  | c :: cs => insertDesc c (sortDesc cs)

/-- Source, scraper.py lines 82-98: the selected image URL is
`candidates[0][1]` after the descending sort when any candidate exists,
otherwise `image_url` stays `None`. -/
def select_image_url (imgs : List ImgTag) : Option String :=
  match sortDesc (imageCandidates imgs) with
  | [] => none
  | c :: _ => some c.2

/- ===================================================================
   Embedding of the clue-line regex of scraper.py line 110:
   re.compile(r"^\s*(\d+)([AD]?)\.?\s*(.+?)[:\u00A0\t]+(.+)$", re.IGNORECASE)
   matched with re.match.  The embedding enumerates the decompositions of
   the line in exactly the priority order of regex backtracking (greedy
   parts prefer longer matches, the lazy group (.+?) prefers shorter ones)
   and keeps the first one that succeeds.  `.` never matches a newline;
   the lines fed to the pattern come from a split on newlines followed by
   strip(), so the match-of-dollar-before-a-final-newline subtlety cannot
   arise and is not modelled.
   =================================================================== -/

/-- Separator class of the clue pattern: colon, no-break space U+00A0, tab. -/
def isSepChar (c : Char) : Bool :=
  c = ':' || c = '\u00A0' || c = '\t'

/-- Attempt to match `[:\u00A0\t]+(.+)$` at the start of `cs`, returning the
text captured by `(.+)`.  The separator run is greedy: it gives characters
back (never below one) only when `(.+)` would be empty, and the freed
separator characters are then captured by `(.+)`. -/
def trySeps (cs : List Char) : Option (List Char) :=
  let seps := cs.takeWhile isSepChar
  let rest := cs.drop seps.length
  if seps.isEmpty then none
  else if !rest.isEmpty && rest.all (fun c => c ≠ '\n') then some rest
  else if rest.isEmpty && seps.length ≥ 2 then some [seps.getLastD ' ']
  else none

/-- Attempt to match `(.+?)[:\u00A0\t]+(.+)$` against `cs`, the clue group
accumulated in reverse in `accRev`.  The lazy group extends one character at
a time, trying the separator after each extension, so shorter clues win. -/
def matchSuffix (accRev : List Char) : List Char → Option (List Char × List Char)
  | [] => none
  | c :: cs =>
    if c = '\n' then none
    else
      match trySeps cs with
      | some ans => some ((c :: accRev).reverse, ans)
      | none => matchSuffix (c :: accRev) cs

/-- Alternatives for `([AD]?)` (IGNORECASE, so also a and d) in priority
order: consume the letter when present, then the empty alternative. -/
def dirOptions : List Char → List (Option Char × List Char)
  | [] => [(none, [])]
  | c :: t =>
    if c = 'A' || c = 'D' || c = 'a' || c = 'd'
    then [(some c, t), (none, c :: t)]
    else [(none, c :: t)]

/-- Alternatives for `\.?` in priority order: consume a dot when present,
then the empty alternative. -/
def dotOptions : List Char → List (List Char)
  | [] => [[]]
  | c :: t => if c = '.' then [t, c :: t] else [c :: t]

/-- The full clue-line pattern, returning the four captured groups
(number digits, optional direction letter, clue text, answer text) of the
first decomposition in backtracking priority order, and `none` when the
pattern does not match the line. -/
def matchClueLine (line : List Char) : Option (List Char × Option Char × List Char × List Char) :=
  let afterWs := line.dropWhile pyIsSpace
  let digitsMax := afterWs.takeWhile Char.isDigit
  if digitsMax.isEmpty then none
  else
    firstSome
      (fun d =>
        let numCs := digitsMax.take d
        let rest0 := afterWs.drop d
        firstSome
          (fun dr =>
            firstSome
              (fun rest2 =>
                let m := (rest2.takeWhile pyIsSpace).length
                firstSome
                  (fun rest3 =>
                    (matchSuffix [] rest3).map
                      (fun g => (numCs, dr.1, g.1, g.2)))
                  ((List.range (m + 1)).map (fun i => rest2.drop (m - i))))
              (dotOptions dr.2))
          (dirOptions rest0))
      ((List.range digitsMax.length).map (fun i => digitsMax.length - i))

/-- Direction tag of a clue map ("across" / "down" in the source). -/
inductive Direction where
  | across
  | down
deriving DecidableEq

/-- One stored clue: scraper.py line 124 stores
`{"clue": clue.strip(), "answer": ans.strip().upper()}`. -/
structure ClueEntry where
  clue : String
  answer : String
deriving DecidableEq

/-- Python dict update `d[k] = v` on an insertion-ordered association list:
an existing key keeps its position and gets the new value, a new key is
appended. -/
def dictSet (k : Nat) (v : ClueEntry) : List (Nat × ClueEntry) → List (Nat × ClueEntry)
  | [] => [(k, v)]
  | (k2, v2) :: rest =>
    if k2 = k then (k, v) :: rest else (k2, v2) :: dictSet k v rest

/-- The two clue dictionaries `clues = {"across": {}, "down": {}}`. -/
structure Clues where
  across : List (Nat × ClueEntry)
  down : List (Nat × ClueEntry)
deriving DecidableEq

/-- The map of `cl` selected by a direction. -/
def Clues.mapOf (cl : Clues) : Direction → List (Nat × ClueEntry)
  | .across => cl.across
  | .down => cl.down

/-- Functional update of the map selected by a direction. -/
def Clues.setIn (cl : Clues) : Direction → Nat → ClueEntry → Clues
  | .across, k, v => { cl with across := dictSet k v cl.across }
  | .down, k, v => { cl with down := dictSet k v cl.down }

/-- Source, scraper.py lines 116-117: the two section-header tests run in
order on the stripped line (both plain `if`, not `elif`), each flipping the
current section when the word occurs in a line shorter than 20 characters. -/
def sectionAfter (sec : Option Direction) (line : List Char) : Option Direction :=
  let s1 := if substrIn "Across".toList line && line.length < 20
            then some Direction.across else sec
  if substrIn "Down".toList line && line.length < 20
  then some Direction.down else s1

/-- Source, scraper.py line 122: explicit direction letter beats the current
section; the comparison with the capital letters is case sensitive. -/
def resolveDirection (dChar : Option Char) (sec : Option Direction) : Option Direction :=
  if dChar = some 'A' then some Direction.across
  else if dChar = some 'D' then some Direction.down
  else sec

/-- Source, scraper.py lines 112-124: one iteration of the clue loop on a raw
line.  The line is stripped; empty lines only pass through; the section
state is updated; a line matching the pattern whose direction resolves
stores the trimmed clue and upper-cased answer under the parsed number. -/
def processClueLine (st : Option Direction × Clues) (rawLine : String) :
    Option Direction × Clues :=
  let line := pyStrip rawLine.toList
  if line.isEmpty then st
  else
    let sec := sectionAfter st.1 line
    match matchClueLine line with
    | none => (sec, st.2)
    | some g =>
      match resolveDirection g.2.1 sec with
      | none => (sec, st.2)
      | some dir =>
        (sec,
         st.2.setIn dir (digitsToNat g.1)
           { clue := String.mk (pyStrip g.2.2.1),
             answer := String.mk ((pyStrip g.2.2.2).map Char.toUpper) })

/-- Source, scraper.py lines 101-124: fold of the clue loop over the lines of
the text content (the text has already been split on newlines; the `<br>`
replacement and `soup.get_text` that produce those lines are HTML-library
effects that live in the environment). -/
def parse_clues (lines : List String) : Clues :=
  (lines.foldl processClueLine (none, ⟨[], []⟩)).2

/-- Source, scraper.py lines 75-126, `extract_data_from_html(html_content)`.
The BeautifulSoup view of the document (its img elements and its text lines)
is an environment function `soup`; an empty payload short-circuits to no
image and empty clue maps (line 77). -/
def extract_data_from_html (soup : String → List ImgTag × List String)
    (html_content : String) : Option String × Clues :=
  if html_content = "" then (none, ⟨[], []⟩)
  else (select_image_url (soup html_content).1, parse_clues (soup html_content).2)

/- ===================================================================
   Embedding of src/Backend/scraper.py : transport and pipeline
   =================================================================== -/

/-- Source, scraper.py line 132: the fixed RSS feed endpoint. -/
def rss_url : String := "https://nyxcrossword.com/feed"

/-- The test `payload_text.strip().startswith("<")` of scraper.py
lines 147 and 151 (and 186): the payload, stripped, begins with markup. -/
def markupB (s : String) : Bool :=
  match pyStrip s.toList with
  | [] => false
  | c :: _ => c = '<'

/-- Source, scraper.py lines 54-73, `fetch_with_curl(url)`: raises when no
`curl` executable exists on the system (line 59, `Exception`, modelled as
`Except.error`); otherwise returns the stdout of the subprocess (the inner
try around `subprocess.run` returns the empty string when the subprocess
itself fails, so `curlStdout` already denotes that final stdout-or-empty
value). -/
def fetch_with_curl (hasCurl : Bool) (curlStdout : String → String)
    (url : String) : Except String String :=
  if !hasCurl then
    Except.error "CURL not found on system and Brotli decode failed."
  else Except.ok (curlStdout url)

/-- One RSS item as BeautifulSoup exposes it to scraper.py lines 160-187:
the title tag text (`none` models a missing tag, on which `.get_text()`
raises), the text of the first of content:encoded / encoded / content if
any such tag exists, the description text if present, and the link text. -/
structure FeedItem where
  title : Option String
  content_encoded : Option String
  description : Option String
  link : Option String

/-- Environment of one run of `get_latest_puzzle`: the outcomes of every
library call the function makes.  `primary` is the outcome of
`requests.get(rss_url)` at line 138 combined with `decode_content` at
line 142: `none` models an exception anywhere in that inner try block
(caught at line 143, leaving the payload empty), `some (status, text)` a
response with its status code and decoded text.  `hasCurl` and `curlStdout`
drive `fetch_with_curl`.  `findItem` is the BeautifulSoup feed parse of
lines 156-160 applied to a payload.  `pageFetch` is
`requests.get(post_url)` plus `decode_content` at lines 182-183, whose
exceptions are not caught locally (`Except.error`).  `soupView` is the
BeautifulSoup document view consumed by `extract_data_from_html`. -/
structure ScrapeEnv where
  primary : Option (Nat × String)
  hasCurl : Bool
  curlStdout : String → String
  findItem : String → Option FeedItem
  pageFetch : String → Except String String
  soupView : String → List ImgTag × List String

/-- Source, scraper.py lines 135-144: the payload text after the primary
attempt; empty when the request raised (line 143) or the status code was
not 200 (line 141). -/
def primary_payload (env : ScrapeEnv) : String :=
  match env.primary with
  | none => ""
  | some st => if st.1 = 200 then st.2 else ""

/-- Source, scraper.py lines 146-148: the curl fallback, triggered when the
primary payload is empty or does not start with markup.  Returns the final
payload text coupled with whether curl was invoked; an `Except.error` is an
exception propagating to the boundary handler. -/
def transport (env : ScrapeEnv) (url : String) : Except String (String × Bool) :=
  let p := primary_payload env
  if p = "" || !(markupB p) then
    match fetch_with_curl env.hasCurl env.curlStdout url with
    | Except.error e => Except.error e
    | Except.ok s => Except.ok (s, true)
  else Except.ok (p, false)

/-- The value `get_latest_puzzle` hands back: the success dictionary of
scraper.py lines 199-203 or an error dictionary (single "error" key). -/
inductive ScrapeResult where
  | ok (title : String) (image_url : Option String) (clues : Clues)
  | err (msg : String)
deriving DecidableEq

/-- A result carrying the "error" key. -/
def ScrapeResult.isError : ScrapeResult → Bool
  | .ok _ _ _ => false
  | .err _ => true

/-- Source, scraper.py lines 177-187: when the RSS body is empty, follow the
link of the item and fetch that page, with the same markup-gated curl
retry. -/
def link_stage (env : ScrapeEnv) (item : FeedItem) : Except String String :=
  match item.link with
  | none => Except.error "AttributeError: no link tag in item"
  | some post_url =>
    match env.pageFetch post_url with
    | Except.error e => Except.error e
    | Except.ok page =>
      if page = "" || !(markupB page) then
        match fetch_with_curl env.hasCurl env.curlStdout post_url with
        | Except.error e => Except.error e
        | Except.ok s => Except.ok s
      else Except.ok page

/-- Source, scraper.py lines 154-203: everything after a validated payload.
Parse the feed, take the first item (error dictionary when absent), read the
title (a missing title tag raises), select the HTML body from
content:encoded / description (Python truthiness: an empty text also counts
as missing and sends the locator to the link), and extract image and
clues. -/
def feed_stage (env : ScrapeEnv) (payload : String) : Except String ScrapeResult :=
  match env.findItem payload with
  | none => Except.ok (ScrapeResult.err "RSS Feed parsed but empty (no <item>).")
  | some item =>
    match item.title with
    | none => Except.error "AttributeError: no title tag in item"
    | some title =>
      let html0 : String :=
        match item.content_encoded with
        | some s => s
        | none => match item.description with
          | some s => s
          | none => ""
      match (if html0 = "" then link_stage env item else Except.ok html0) with
      | Except.error e => Except.error e
      | Except.ok html =>
        let ex := extract_data_from_html env.soupView html
        Except.ok (ScrapeResult.ok title ex.1 ex.2)

/-- Source, scraper.py lines 131-203: the body of the boundary try block of
`get_latest_puzzle`. -/
def scrape_body (env : ScrapeEnv) : Except String ScrapeResult :=
  match transport env rss_url with
  | Except.error e => Except.error e
  | Except.ok pr =>
    if pr.1 = "" || !(markupB pr.1) then
      Except.ok (ScrapeResult.err "Failed to retrieve valid XML data.")
    else feed_stage env pr.1

/-- Source, scraper.py lines 128-208, `get_latest_puzzle()`: the boundary
handler of lines 205-208 turns any exception escaping the body into the
error dictionary with the exception text. -/
def get_latest_puzzle (env : ScrapeEnv) : ScrapeResult :=
  match scrape_body env with
  | Except.ok r => r
  | Except.error e => ScrapeResult.err e

/- ===================================================================
   Embedding of src/Backend/app.py, and the scraper interface it expects
   =================================================================== -/

/-- The names bound at top level of src/Backend/scraper.py (its imports,
the `HEADERS` constant, and its four function definitions); these are the
module attributes available to `from scraper import ...`. -/
def scraper_module_names : List String :=
  ["requests", "BeautifulSoup", "re", "traceback", "gzip", "zlib",
   "subprocess", "shutil", "HEADERS", "decode_content", "fetch_with_curl",
   "extract_data_from_html", "get_latest_puzzle"]

/-- Python `datetime.date.weekday()` (Monday = 0 ... Sunday = 6) for a
Gregorian date, via the Zeller congruence. -/
def py_weekday (y m d : Nat) : Nat :=
  let yz := if m ≤ 2 then y - 1 else y
  let mz := if m ≤ 2 then m + 12 else m
  let k := yz % 100
  let j := yz / 100
  let h := (d + (13 * (mz + 1)) / 5 + k + k / 4 + j / 4 + 5 * j) % 7
  (h + 5) % 7

/-- The scraped-data dictionary shape that app.py lines 17-31 consumes: an
optional "error" key, the title, image URL and clues of the scrape, and
optional "rows"/"cols" keys read by `scraped_data.get('rows', 15)` and
`scraped_data.get('cols', 15)`. -/
structure Scraped where
  error : Option String
  title : String
  image_url : Option String
  clues : Clues
  rows : Option Nat
  cols : Option Nat

/-- Modelled from the spec: `scraper.get_puzzle`, which app.py line 3
imports but src/Backend/scraper.py never defines (the module only defines
`get_latest_puzzle`, taking no date).  Following spec sections 3, 4.2 and 6:
the optional date selects the feed or a per-date page, both retrieved and
extracted by the same machinery (stood for here by the `get_latest_puzzle`
pipeline over the environment); the expected grid dimensions are 21 by 21
when the request date falls on a Sunday (Python weekday index 6) and
15 by 15 on any other weekday; absent a date, the fallback heuristic is the
presence of the word "sunday" in the lower-cased title. -/
def get_puzzle (env : ScrapeEnv) (date : Option (Nat × Nat × Nat)) : Scraped :=
  match get_latest_puzzle env with
  | ScrapeResult.err e =>
    { error := some e, title := "", image_url := none,
      clues := ⟨[], []⟩, rows := none, cols := none }
  | ScrapeResult.ok title image_url clues =>
    let sunday : Bool :=
      match date with
      | some ymd => py_weekday ymd.1 ymd.2.1 ymd.2.2 == 6
      | none => substrIn "sunday".toList (title.toList.map Char.toLower)
    let n : Nat := if sunday then 21 else 15
    { error := none, title := title, image_url := image_url,
      clues := clues, rows := some n, cols := some n }

/-- Number of parameters of the definition
`def process_grid_image(image_url):` at grid_extractor.py line 9 (no
defaults, no varargs). -/
def process_grid_image_paramCount : Nat := 1

/-- The call `process_grid_image(scraped_data['image_url'], rows, cols)` at
app.py line 31.  Python checks the arity of a call before running the body:
a call whose number of positional arguments differs from the parameter
count of the definition raises TypeError.  `extraArgs` are the positional
arguments after the image URL. -/
def callProcessGridImage (cv : Option (Nat → Nat → Bool))
    (image_url : Option String) (extraArgs : List Nat) :
    Except String (List (List Int)) :=
  if 1 + extraArgs.length ≠ process_grid_image_paramCount then
    Except.error "TypeError: process_grid_image() takes 1 positional argument"
  else Except.ok (process_grid_image cv image_url)

/-- The HTTP responses app.py produces: the success JSON of lines 41-47, or
an error JSON with a status code. -/
inductive ApiResponse where
  | ok (title : String) (grid : List (List Int)) (numbers : List (String × Nat))
      (clues : Clues) (date : Option String)
  | err (status : Nat) (msg : String)

/-- An error response (the handler returned an error JSON body). -/
def ApiResponse.isError : ApiResponse → Bool
  | .ok _ _ _ _ _ => false
  | .err _ _ => true

/-- Source, app.py lines 10-52, the `get_crossword` handler applied to the
scraped data: an "error" key is passed through with status 500 (lines
20-22); otherwise rows and cols are read with default 15 (lines 26-27) and
passed as extra positional arguments to `process_grid_image` (line 31)
inside the inner try whose handler returns status 500 (lines 32-35); an
`IndexError` escaping `generate_numbering` (line 38) reaches the outer
handler of lines 49-52. -/
def get_crossword (cv : Option (Nat → Nat → Bool)) (scraped : Scraped)
    (date_str : Option String) : ApiResponse :=
  match scraped.error with
  | some e => ApiResponse.err 500 e
  | none =>
    let rows := scraped.rows.getD 15
    let cols := scraped.cols.getD 15
    match callProcessGridImage cv scraped.image_url [rows, cols] with
    | Except.error _ => ApiResponse.err 500 "Failed to process grid image."
    | Except.ok grid_matrix =>
      match generate_numbering grid_matrix with
      | none => ApiResponse.err 500 "Internal Server Error"
      | some nums =>
        ApiResponse.ok scraped.title grid_matrix nums scraped.clues date_str

/- ===================================================================
   Theorems.  One theorem per claim of the specification audit, with
   shared helper lemmas before them.
   =================================================================== -/

/-- C4 counterexample: the fixed sampling canvas side (750, grid_extractor.py
line 77) is not evenly divisible by both supported grid sizes: 21 does not
divide 750. -/
theorem target_size_not_div_both : ¬ (15 ∣ target_size ∧ 21 ∣ target_size) := by
  decide

/-- C4 (amended): the sampling canvas side 750 is evenly divisible by 15
(the per-cell span `target_size // 15` is exactly 50 pixels), but it is not
divisible by 21, so the per-cell span is an exact integer only for the
15-by-15 dimension. -/
theorem target_size_div_15_only :
    (15 ∣ target_size ∧ target_size / 15 = 50 ∧ cell_size = 50) ∧
    ¬ 21 ∣ target_size := by
  decide

/-- C1: evaluation of `process_grid_image` at a requested dimension pair of
(21, 21).  The function has no dimension parameters; on a successful run it
returns the hardcoded 15-by-15 sampled matrix, and on any failure it returns
the 15-by-15 default grid, never a 21-row matrix; the three-argument call
site in app.py line 31 is arity-rejected (see `callProcessGridImage`). -/
theorem process_grid_image_always_15x15 :
    (process_grid_image (some (fun r c => decide ((r + c) % 2 = 0)))
        (some "http://example.com/grid.png")).map List.length =
      List.replicate 15 15 ∧
    process_grid_image none (some "http://example.com/grid.png") =
      get_default_grid ∧
    get_default_grid.map List.length = List.replicate 15 15 ∧
    callProcessGridImage (some (fun r c => decide ((r + c) % 2 = 0)))
        (some "http://example.com/grid.png") [21, 21] =
      Except.error "TypeError: process_grid_image() takes 1 positional argument" ∧
    (15 : Nat) ≠ 21 :=
  ⟨by decide, by decide, by decide, rfl, by decide⟩

/-- C5: the handler of app.py can never reach its success branch:
`process_grid_image` is defined with a single parameter while app.py line 31
passes three positional arguments, so the inner try always catches a
TypeError and every run of `get_crossword` produces an error response;
moreover the name `get_puzzle` imported at app.py line 3 is not among the
top-level names of the scraper module. -/
theorem get_crossword_never_succeeds :
    process_grid_image_paramCount = 1 ∧
    1 + [21, 15].length ≠ process_grid_image_paramCount ∧
    "get_puzzle" ∉ scraper_module_names ∧
    ∀ (cv : Option (Nat → Nat → Bool)) (scraped : Scraped)
      (date_str : Option String),
      (get_crossword cv scraped date_str).isError = true := by
  refine ⟨rfl, by decide, by decide, ?_⟩
  intro cv scraped date_str
  match h : scraped.error with
  | some e => simp [get_crossword, h, ApiResponse.isError]
  | none =>
    simp [get_crossword, h, callProcessGridImage, process_grid_image_paramCount,
      ApiResponse.isError]

/-- A concrete scrape environment whose primary fetch succeeds with a markup
payload and whose feed carries a complete item, used to evaluate the
pipeline on a Sunday-dated request. -/
def envSunday : ScrapeEnv :=
  { primary := some (200, "<rss><item>post</item></rss>"),
    hasCurl := true,
    curlStdout := fun _ => "",
    findItem := fun _ =>
      some { title := some "LA Times Crossword 11 Oct 2026, Sunday",
             content_encoded := some "<div>body</div>",
             description := none,
             link := some "https://nyxcrossword.com/post" },
    pageFetch := fun _ => Except.ok "",
    soupView := fun _ =>
      ([⟨some "https://site/grid-2026.png", none, some 300⟩],
       ["1A. Alpha: BETA"]) }

/-- C3: evaluation of the pipeline on a request dated 2026-10-11, a Sunday
(Python weekday index 6).  The spec-modelled `get_puzzle` reports the
expected 21-by-21 dimensions, but the handler then always answers with an
error response (the three-argument call of `process_grid_image` is
arity-rejected), and the extractor itself can only ever produce a 15-by-15
matrix: no request, Sunday or not, ever yields a 21-by-21 grid. -/
theorem sunday_request_yields_no_21x21 :
    py_weekday 2026 10 11 = 6 ∧
    (get_puzzle envSunday (some (2026, 10, 11))).rows = some 21 ∧
    (get_puzzle envSunday (some (2026, 10, 11))).cols = some 21 ∧
    (get_crossword (some (fun _ _ => false))
        (get_puzzle envSunday (some (2026, 10, 11)))
        (some "2026-10-11")).isError = true ∧
    (process_grid_image (some (fun _ _ => false))
        (some "https://site/grid-2026.png")).map List.length =
      List.replicate 15 15 := by
  decide

/-- C8: whenever the primary decode yields an empty or non-markup payload,
the curl escalation is invoked on the same URL and its stdout becomes the
transport result; when that stdout is markup, the validation gate of
scraper.py lines 150-152 passes it to the rest of the pipeline
(`feed_stage`). -/
theorem transport_curl_fallback (env : ScrapeEnv) (url : String)
    (hfail : primary_payload env = "" ∨ markupB (primary_payload env) = false)
    (hcurl : env.hasCurl = true) :
    transport env url = Except.ok (env.curlStdout url, true) ∧
    (markupB (env.curlStdout rss_url) = true →
      scrape_body env = feed_stage env (env.curlStdout rss_url)) := by
  have hcond : (primary_payload env = "" || !(markupB (primary_payload env))) = true := by
    rcases hfail with h | h
    · simp [h]
    · simp [h]
  have htr : ∀ u, transport env u = Except.ok (env.curlStdout u, true) := by
    intro u
    unfold transport fetch_with_curl
    simp [hcurl, hcond]
  refine ⟨htr url, ?_⟩
  intro hmk
  have hne : env.curlStdout rss_url ≠ "" := by
    intro h0
    rw [h0] at hmk
    exact absurd hmk (by decide)
  unfold scrape_body
  rw [htr rss_url]
  simp [hne, hmk]

/-- A concrete environment whose primary fetch raises and whose curl
escalation produces a markup payload with no item in it. -/
def envCurlMarkup : ScrapeEnv :=
  { primary := none,
    hasCurl := true,
    curlStdout := fun _ => "<rss></rss>",
    findItem := fun _ => none,
    pageFetch := fun _ => Except.ok "",
    soupView := fun _ => ([], []) }

/-- C8 witness: the fallback theorem applied to `envCurlMarkup` and the feed
URL, all hypotheses discharged by evaluation. -/
theorem transport_curl_fallback_witness :
    transport envCurlMarkup rss_url = Except.ok ("<rss></rss>", true) ∧
    scrape_body envCurlMarkup = feed_stage envCurlMarkup "<rss></rss>" := by
  have h := transport_curl_fallback envCurlMarkup rss_url (Or.inl rfl) rfl
  exact ⟨h.1, h.2 (by decide)⟩

/-- C9: when every strategy yields empty or non-markup output,
`get_latest_puzzle` returns the structured error dictionary of scraper.py
line 152; when the curl binary is missing, the exception raised by
`fetch_with_curl` is caught at the pipeline boundary (lines 205-208) and
converted into an error dictionary; and in general every exception escaping
the body surfaces as an error dictionary, never as a raised exception. -/
theorem get_latest_puzzle_error_object (env : ScrapeEnv) :
    ((primary_payload env = "" ∨ markupB (primary_payload env) = false) →
      (env.curlStdout rss_url = "" ∨ markupB (env.curlStdout rss_url) = false) →
      env.hasCurl = true →
      get_latest_puzzle env = ScrapeResult.err "Failed to retrieve valid XML data.") ∧
    ((primary_payload env = "" ∨ markupB (primary_payload env) = false) →
      env.hasCurl = false →
      get_latest_puzzle env =
        ScrapeResult.err "CURL not found on system and Brotli decode failed.") ∧
    (∀ e, scrape_body env = Except.error e →
      get_latest_puzzle env = ScrapeResult.err e) ∧
    (∀ r, get_latest_puzzle env = r → r.isError = true ∨ ∃ t u c, r = ScrapeResult.ok t u c) := by
  have hcond : ∀ (s : String), s = "" ∨ markupB s = false → (s = "" || !(markupB s)) = true := by
    intro s hs
    rcases hs with h | h
    · simp [h]
    · simp [h]
  refine ⟨?_, ?_, ?_, ?_⟩
  · intro hfail hcurlout hcurl
    unfold get_latest_puzzle scrape_body transport fetch_with_curl
    simp [hcurl, hcond _ hfail, hcond _ hcurlout]
  · intro hfail hnocurl
    unfold get_latest_puzzle scrape_body transport fetch_with_curl
    simp [hnocurl, hcond _ hfail]
  · intro e he
    unfold get_latest_puzzle
    rw [he]
  · intro r hr
    cases r with
    | ok t u c => exact Or.inr ⟨t, u, c, rfl⟩
    | err m => exact Or.inl rfl

/-- A concrete environment where the primary fetch raises and curl produces
empty output: every strategy fails. -/
def envAllFail : ScrapeEnv :=
  { primary := none,
    hasCurl := true,
    curlStdout := fun _ => "",
    findItem := fun _ => none,
    pageFetch := fun _ => Except.ok "",
    soupView := fun _ => ([], []) }

/-- C9 witness: the boundary theorem applied to `envAllFail`, hypotheses
discharged by evaluation: the all-strategies-fail run returns the error
dictionary. -/
theorem get_latest_puzzle_error_object_witness :
    get_latest_puzzle envAllFail = ScrapeResult.err "Failed to retrieve valid XML data." :=
  (get_latest_puzzle_error_object envAllFail).1 (Or.inl rfl) (Or.inl rfl) rfl

/-- The candidate loop with an arbitrary starting accumulator appends the
candidates of the remaining images in order. -/
lemma foldl_candAppend (imgs : List ImgTag) :
    ∀ acc : List (Int × String),
      imgs.foldl
        (fun candidates img =>
          match candOf img with
          | none => candidates
          | some c => candidates ++ [c]) acc =
      acc ++ imgs.filterMap candOf := by
  induction imgs with
  | nil => intro acc; simp
  | cons i l ih =>
    intro acc
    cases h : candOf i with
    | none => simp [List.foldl_cons, List.filterMap_cons, h, ih]
    | some c => simp [List.foldl_cons, List.filterMap_cons, h, ih]

/-- Stable descending insertion grows the length by one. -/
lemma insertDesc_length (c : Int × String) :
    ∀ l : List (Int × String), (insertDesc c l).length = l.length + 1 := by
  intro l
  induction l with
  | nil => rfl
  | cons b bs ih =>
    by_cases h : c.1 ≥ b.1 <;> simp [insertDesc, h, ih]

/-- The stable descending sort of a nonempty list is nonempty. -/
lemma sortDesc_eq_nil {l : List (Int × String)} (h : sortDesc l = []) : l = [] := by
  cases l with
  | nil => rfl
  | cons c cs =>
    exfalso
    have hlen := congrArg List.length h
    rw [show sortDesc (c :: cs) = insertDesc c (sortDesc cs) from rfl,
      insertDesc_length] at hlen
    simp at hlen

/-- Head of the stable descending sort: it is an element of the input of
maximal score, and it is the first such element (everything before it in
the input has a strictly smaller score). -/
lemma sortDesc_head_spec :
    ∀ (cands : List (Int × String)) (c : Int × String) (rest : List (Int × String)),
      sortDesc cands = c :: rest →
      c ∈ cands ∧ (∀ d ∈ cands, d.1 ≤ c.1) ∧
      ∃ pre post, cands = pre ++ c :: post ∧ ∀ d ∈ pre, d.1 < c.1 := by
  intro cands
  induction cands with
  | nil => intro c rest h; simp [sortDesc] at h
  | cons a l ih =>
    intro c rest h
    rw [show sortDesc (a :: l) = insertDesc a (sortDesc l) from rfl] at h
    cases hl : sortDesc l with
    | nil =>
      rw [hl] at h
      simp only [insertDesc] at h
      obtain ⟨hc, hrest⟩ := List.cons.inj h
      have hle : l = [] := sortDesc_eq_nil hl
      subst hc hle
      exact ⟨List.mem_cons_self _ _, by simp,
        [], [], by simp, by simp⟩
    | cons b bs =>
      rw [hl] at h
      have hspec := ih b bs hl
      by_cases hab : a.1 ≥ b.1
      · rw [show insertDesc a (b :: bs) = if a.1 ≥ b.1 then a :: b :: bs
              else b :: insertDesc a bs from rfl, if_pos hab] at h
        obtain ⟨hc, hrest⟩ := List.cons.inj h
        subst hc
        refine ⟨List.mem_cons_self _ _, ?_, [], l, by simp, by simp⟩
        intro d hd
        rcases List.mem_cons.mp hd with hda | hdl
        · exact le_of_eq (congrArg Prod.fst hda)
        · exact le_trans (hspec.2.1 d hdl) hab
      · rw [show insertDesc a (b :: bs) = if a.1 ≥ b.1 then a :: b :: bs
              else b :: insertDesc a bs from rfl, if_neg hab] at h
        obtain ⟨hc, hrest⟩ := List.cons.inj h
        subst hc
        have hlt : a.1 < b.1 := lt_of_not_ge hab
        obtain ⟨pre, post, hdec, hpre⟩ := hspec.2.2
        refine ⟨List.mem_cons_of_mem _ hspec.1, ?_, a :: pre, post, by simp [hdec], ?_⟩
        · intro d hd
          rcases List.mem_cons.mp hd with hda | hdl
          · exact le_of_lt (hda ▸ hlt)
          · exact hspec.2.1 d hdl
        · intro d hd
          rcases List.mem_cons.mp hd with hda | hdl
          · exact hda ▸ hlt
          · exact hpre d hdl

/-- C6: image selection.  The candidate list of the loop of scraper.py
lines 85-94 is the per-image `candOf` filter-map (so every element whose
source contains "pixel" or "icon" is skipped, and each kept element scores
+50 for grid/crossword in the lower-cased source and +20 for a declared
width above 200); the selected URL is the head of the stable descending
sort, an element of maximal score preceded only by strictly smaller scores
(first-seen wins ties); and on the two-image example the grid image wins
with score 70 while the icon is excluded. -/
theorem image_selection_spec :
    (∀ imgs : List ImgTag, imageCandidates imgs = imgs.filterMap candOf) ∧
    (∀ (img : ImgTag) (src : String), pyOrStr img.src img.data_src = some src →
       (substrIn "pixel".toList src.toList = true ∨
        substrIn "icon".toList src.toList = true) →
       candOf img = none) ∧
    (∀ (imgs : List ImgTag) (c : Int × String) (rest : List (Int × String)),
       sortDesc (imageCandidates imgs) = c :: rest →
       select_image_url imgs = some c.2 ∧
       c ∈ imageCandidates imgs ∧
       (∀ d ∈ imageCandidates imgs, d.1 ≤ c.1) ∧
       ∃ pre post, imageCandidates imgs = pre ++ c :: post ∧
         ∀ d ∈ pre, d.1 < c.1) ∧
    (candOf ⟨some "https://site/img/icon.png", none, none⟩ = none ∧
     candOf ⟨some "https://site/img/grid-2024.png", none, some 300⟩ =
       some (70, "https://site/img/grid-2024.png") ∧
     select_image_url
       [⟨some "https://site/img/icon.png", none, none⟩,
        ⟨some "https://site/img/grid-2024.png", none, some 300⟩] =
       some "https://site/img/grid-2024.png") := by
  refine ⟨?_, ?_, ?_, by decide, by decide, by decide⟩
  · intro imgs
    exact foldl_candAppend imgs []
  · intro img src hsrc hskip
    unfold candOf
    rw [hsrc]
    rcases hskip with h | h <;> simp at h <;>
      by_cases he : src = "" <;> simp [h, he]
  · intro imgs c rest h
    have hspec := sortDesc_head_spec _ _ _ h
    exact ⟨by simp [select_image_url, h], hspec.1, hspec.2.1, hspec.2.2⟩

/-- C6 witness: the selection theorem applied to a concrete one-image list,
its sort hypothesis discharged by evaluation. -/
theorem image_selection_spec_witness :
    select_image_url [⟨some "https://a/grid.png", none, some 300⟩] =
      some "https://a/grid.png" ∧
    ((70 : Int), "https://a/grid.png") ∈
      imageCandidates [⟨some "https://a/grid.png", none, some 300⟩] := by
  have h := image_selection_spec.2.2.1
    [⟨some "https://a/grid.png", none, some 300⟩]
    (70, "https://a/grid.png") [] (by decide)
  exact ⟨h.1, h.2.1⟩

/-- Updating the map of a direction and reading it back gives the dictionary
update of that map. -/
lemma Clues.mapOf_setIn (cl : Clues) (dir : Direction) (k : Nat) (v : ClueEntry) :
    (cl.setIn dir k v).mapOf dir = dictSet k v (cl.mapOf dir) := by
  cases dir <;> rfl

/-- C7: clue parsing.  The single line "12A. Capital of France: PARIS"
yields exactly the across entry 12 with clue "Capital of France" and answer
"PARIS" and no down entry; and in general, whenever the clue pattern
matches a stripped line and the direction resolves, the stored entry is the
stripped clue group and the stripped, upper-cased answer group inserted
under the parsed number. -/
theorem clue_parsing_spec :
    (parse_clues ["12A. Capital of France: PARIS"]).across =
      [(12, { clue := "Capital of France", answer := "PARIS" })] ∧
    (parse_clues ["12A. Capital of France: PARIS"]).down = [] ∧
    (∀ (st : Option Direction × Clues) (rawLine : String)
       (g : List Char × Option Char × List Char × List Char) (dir : Direction),
       matchClueLine (pyStrip rawLine.toList) = some g →
       resolveDirection g.2.1 (sectionAfter st.1 (pyStrip rawLine.toList)) = some dir →
       ((processClueLine st rawLine).2).mapOf dir =
         dictSet (digitsToNat g.1)
           { clue := String.mk (pyStrip g.2.2.1),
             answer := String.mk ((pyStrip g.2.2.2).map Char.toUpper) }
           (st.2.mapOf dir)) := by
  refine ⟨by decide, by decide, ?_⟩
  intro st rawLine g dir hmatch hdir
  unfold processClueLine
  have hne : (pyStrip rawLine.toList).isEmpty = false := by
    cases hl : pyStrip rawLine.toList with
    | nil =>
      rw [hl, show matchClueLine [] = none from rfl] at hmatch
      exact Option.noConfusion hmatch
    | cons c cs => rfl
  simp only [hne, Bool.false_eq_true, if_false, hmatch, hdir]
  exact Clues.mapOf_setIn _ _ _ _

/-- C7 witness: the parsing theorem applied to the concrete line
"12A. Capital of France: PARIS" from the empty state, both hypotheses
discharged by evaluation. -/
theorem clue_parsing_spec_witness :
    ((processClueLine (none, ⟨[], []⟩) "12A. Capital of France: PARIS").2).mapOf
        Direction.across =
      dictSet (digitsToNat "12".toList)
        { clue := String.mk (pyStrip "Capital of France".toList),
          answer := String.mk ((pyStrip " PARIS".toList).map Char.toUpper) }
        ((⟨[], []⟩ : Clues).mapOf Direction.across) :=
  clue_parsing_spec.2.2 (none, ⟨[], []⟩) "12A. Capital of France: PARIS"
    ("12".toList, some 'A', "Capital of France".toList, " PARIS".toList)
    Direction.across (by decide) (by decide)

/-- In a rectangular matrix, an in-bounds index succeeds and yields the
total view of the cell. -/
lemma cellAt_of_rect {M : List (List Int)} {cols : Nat}
    (hrect : ∀ row ∈ M, row.length = cols) {r c : Nat}
    (hr : r < M.length) (hc : c < cols) :
    cellAt M r c = some (cellD M r c) := by
  have h1 : M[r]? = some M[r] := List.getElem?_eq_getElem hr
  have h2 : M[r].length = cols := hrect _ (List.getElem_mem hr)
  have hc2 : c < M[r].length := h2 ▸ hc
  have h3 : M[r][c]? = some M[r][c] := List.getElem?_eq_getElem hc2
  simp [cellAt, cellD, h1, h3]

/-- One pass of the numbering loop body at an in-bounds cell of a
rectangular matrix: it succeeds, and it extends the dictionary exactly when
the cell starts an entry. -/
lemma numberStep_of_rect {M : List (List Int)} {cols : Nat}
    (hrect : ∀ row ∈ M, row.length = cols) {rc : Nat × Nat}
    (hr : rc.1 < M.length) (hc : rc.2 < cols) (k : Nat)
    (a : List (String × Nat)) :
    numberStep M (some (k, a)) rc =
      if startsEntry M rc then some (k + 1, a ++ [(keyOf rc.1 rc.2, k)])
      else some (k, a) := by
  have hv : cellAt M rc.1 rc.2 = some (cellD M rc.1 rc.2) :=
    cellAt_of_rect hrect hr hc
  have hA : (if rc.2 = 0 then some true
        else (cellAt M rc.1 (rc.2 - 1)).map (fun w => w == 0)) =
      some (rc.2 == 0 || cellD M rc.1 (rc.2 - 1) == 0) := by
    by_cases h0 : rc.2 = 0
    · simp [h0]
    · have hb : rc.2 - 1 < cols := lt_of_le_of_lt (Nat.sub_le _ _) hc
      rw [if_neg h0, cellAt_of_rect hrect hr hb]
      simp [h0]
  have hD : (if rc.1 = 0 then some true
        else (cellAt M (rc.1 - 1) rc.2).map (fun w => w == 0)) =
      some (rc.1 == 0 || cellD M (rc.1 - 1) rc.2 == 0) := by
    by_cases h0 : rc.1 = 0
    · simp [h0]
    · have hb : rc.1 - 1 < M.length := lt_of_le_of_lt (Nat.sub_le _ _) hr
      rw [if_neg h0, cellAt_of_rect hrect hb hc]
      simp [h0]
  unfold numberStep
  simp only [hv]
  by_cases hz : cellD M rc.1 rc.2 = 0
  · have hs : startsEntry M rc = false := by
      simp [startsEntry, hz]
    simp [hz, hs]
  · have hs : startsEntry M rc =
        ((rc.2 == 0 || cellD M rc.1 (rc.2 - 1) == 0) ||
         (rc.1 == 0 || cellD M (rc.1 - 1) rc.2 == 0)) := by
      simp [startsEntry, hz]
    simp only [if_neg hz, hA, hD, ← hs, keyOf]

/-- The numbering loop folded over any in-bounds cell list of a rectangular
matrix succeeds and appends the consecutively numbered qualifying cells. -/
lemma foldl_numberStep_of_rect {M : List (List Int)} {cols : Nat}
    (hrect : ∀ row ∈ M, row.length = cols) :
    ∀ ps : List (Nat × Nat), (∀ p ∈ ps, p.1 < M.length ∧ p.2 < cols) →
    ∀ (k : Nat) (a : List (String × Nat)),
      ps.foldl (numberStep M) (some (k, a)) =
        some (k + (ps.filter (startsEntry M)).length,
              a ++ numberFrom k (ps.filter (startsEntry M))) := by
  intro ps
  induction ps with
  | nil => intro _ k a; simp [numberFrom]
  | cons p ps ih =>
    intro hbd k a
    have hp := hbd p (List.mem_cons_self _ _)
    have hrest : ∀ q ∈ ps, q.1 < M.length ∧ q.2 < cols :=
      fun q hq => hbd q (List.mem_cons_of_mem _ hq)
    rw [List.foldl_cons, numberStep_of_rect hrect hp.1 hp.2]
    by_cases hs : startsEntry M p
    · rw [if_pos hs, ih hrest (k + 1) (a ++ [(keyOf p.1 p.2, k)])]
      rw [List.filter_cons_of_pos (by simpa using hs)]
      simp [numberFrom, Nat.add_assoc, Nat.add_comm 1]
    · rw [if_neg hs, ih hrest k a]
      rw [List.filter_cons_of_neg (by simpa using hs)]

/-- Folding over a flattened list of blocks is the nested fold. -/
lemma foldl_flatMap {α β σ : Type} (g : α → List β) (f : σ → β → σ) :
    ∀ (l : List α) (init : σ),
      (l.flatMap g).foldl f init =
        l.foldl (fun st x => (g x).foldl f st) init := by
  intro l
  induction l with
  | nil => intro init; rfl
  | cons x xs ih => intro init; simp [List.flatMap_cons, List.foldl_append, ih]

/-- Membership in the row-major cell enumeration is exactly being in
bounds. -/
lemma mem_rowMajorCells {rows cols : Nat} {p : Nat × Nat} :
    p ∈ rowMajorCells rows cols ↔ p.1 < rows ∧ p.2 < cols := by
  cases p with
  | mk r c =>
    simp [rowMajorCells, List.mem_flatMap, List.mem_map, List.mem_range]

/-- The numbers of a consecutively numbered cell list. -/
lemma numberFrom_map_snd :
    ∀ (l : List (Nat × Nat)) (k : Nat),
      (numberFrom k l).map Prod.snd = List.range' k l.length := by
  intro l
  induction l with
  | nil => intro k; rfl
  | cons p l ih => intro k; simp [numberFrom, ih, List.range'_succ]

/-- Characterisation of `generate_numbering` on a nonempty rectangular
matrix: it succeeds and returns the qualifying cells of the row-major scan,
numbered consecutively from 1. -/
lemma generate_numbering_eq {M : List (List Int)} (hne : M ≠ [])
    (hrect : ∀ row ∈ M, row.length = (M.getD 0 []).length) :
    generate_numbering M = some (numberFrom 1 (qualCells M)) := by
  obtain ⟨row0, Mtl, rfl⟩ : ∃ r t, M = r :: t := by
    cases M with
    | nil => exact absurd rfl hne
    | cons r t => exact ⟨r, t, rfl⟩
  have hrow0 : ((row0 :: Mtl).getD 0 []) = row0 := rfl
  rw [hrow0] at hrect
  unfold generate_numbering
  have hnest :
      (List.range (row0 :: Mtl).length).foldl
        (fun st r =>
          (List.range row0.length).foldl
            (fun st2 c => numberStep (row0 :: Mtl) st2 (r, c)) st)
        (some (1, [])) =
      (rowMajorCells (row0 :: Mtl).length row0.length).foldl
        (numberStep (row0 :: Mtl)) (some (1, [])) := by
    rw [rowMajorCells, foldl_flatMap]
    congr 1
    funext st r
    rw [List.foldl_map]
  simp only [List.getElem?_cons_zero]
  rw [hnest, foldl_numberStep_of_rect hrect _
    (fun p hp => mem_rowMajorCells.mp hp) 1 []]
  simp [qualCells, hrow0]

/-- A cell of a rectangular binary matrix read through the total view is 0
or 1. -/
lemma cellD_binary {M : List (List Int)} {cols : Nat}
    (hrect : ∀ row ∈ M, row.length = cols)
    (hbin : ∀ row ∈ M, ∀ v ∈ row, v = 0 ∨ v = 1) {r c : Nat}
    (hr : r < M.length) (hc : c < cols) :
    cellD M r c = 0 ∨ cellD M r c = 1 := by
  have h1 : M[r]? = some M[r] := List.getElem?_eq_getElem hr
  have h2 : M[r].length = cols := hrect _ (List.getElem_mem hr)
  have hc2 : c < M[r].length := h2 ▸ hc
  have h3 : M[r][c]? = some M[r][c] := List.getElem?_eq_getElem hc2
  have hv : cellD M r c = M[r][c] := by simp [cellD, cellAt, h1, h3]
  rw [hv]
  exact hbin _ (List.getElem_mem hr) _ (List.getElem_mem hc2)

/-- The boolean entry-start test as a proposition. -/
lemma startsEntry_iff {M : List (List Int)} {p : Nat × Nat} :
    startsEntry M p = true ↔
      (cellD M p.1 p.2 ≠ 0 ∧
        ((p.2 = 0 ∨ cellD M p.1 (p.2 - 1) = 0) ∨
         (p.1 = 0 ∨ cellD M (p.1 - 1) p.2 = 0))) := by
  simp [startsEntry]

/-- C2: numbering correctness.  On every nonempty rectangular binary matrix,
`generate_numbering` succeeds and returns exactly the playable cells (value
1) that begin an across run (leftmost column or blocked cell to the left) or
a down run (top row or blocked cell above), taken in row-major scan order (a
sublist of the row-major enumeration), paired with the consecutive numbers
1, 2, 3, ... with no gaps. -/
theorem generate_numbering_spec (M : List (List Int)) (hne : M ≠ [])
    (hrect : ∀ row ∈ M, row.length = (M.getD 0 []).length)
    (hbin : ∀ row ∈ M, ∀ v ∈ row, v = 0 ∨ v = 1) :
    generate_numbering M = some (numberFrom 1 (qualCells M)) ∧
    (∀ p : Nat × Nat, p ∈ qualCells M ↔
      (p.1 < M.length ∧ p.2 < (M.getD 0 []).length ∧
       cellD M p.1 p.2 = 1 ∧
       ((p.2 = 0 ∨ cellD M p.1 (p.2 - 1) = 0) ∨
        (p.1 = 0 ∨ cellD M (p.1 - 1) p.2 = 0)))) ∧
    (qualCells M).Sublist (rowMajorCells M.length (M.getD 0 []).length) ∧
    (numberFrom 1 (qualCells M)).map Prod.snd =
      List.range' 1 (qualCells M).length := by
  refine ⟨generate_numbering_eq hne hrect, ?_, List.filter_sublist _,
    numberFrom_map_snd _ 1⟩
  intro p
  rw [qualCells, List.mem_filter, mem_rowMajorCells]
  constructor
  · rintro ⟨⟨hr, hc⟩, hs⟩
    rw [startsEntry_iff] at hs
    have hb := cellD_binary hrect hbin hr hc
    refine ⟨hr, hc, ?_, hs.2⟩
    rcases hb with h0 | h1
    · exact absurd h0 hs.1
    · exact h1
  · rintro ⟨hr, hc, h1, hdisj⟩
    refine ⟨⟨hr, hc⟩, ?_⟩
    rw [startsEntry_iff]
    refine ⟨?_, hdisj⟩
    rw [h1]
    norm_num

/-- C2 witness: the numbering theorem applied to the concrete matrix
[[1,0],[1,1]], all hypotheses discharged by evaluation; the numbering is
cell (0,0) as 1, cell (1,0) as 2 and cell (1,1) as 3. -/
theorem generate_numbering_spec_witness :
    generate_numbering [[1, 0], [1, 1]] =
      some (numberFrom 1 (qualCells [[1, 0], [1, 1]])) ∧
    numberFrom 1 (qualCells [[1, 0], [1, 1]]) =
      [("0,0", 1), ("1,0", 2), ("1,1", 3)] :=
  ⟨(generate_numbering_spec [[1, 0], [1, 1]] (by decide) (by decide)
      (by decide)).1,
   by decide⟩

/-- C10: domain of `generate_numbering`.  On the empty matrix the very first
index expression `grid_matrix[0]` fails (IndexError), so the function
fails; on every nonempty rectangular matrix every index access of the loop
is in bounds and the function returns normally. -/
theorem generate_numbering_totality :
    generate_numbering ([] : List (List Int)) = none ∧
    ∀ M : List (List Int), M ≠ [] →
      (∀ row ∈ M, row.length = (M.getD 0 []).length) →
      ∃ l, generate_numbering M = some l := by
  refine ⟨rfl, ?_⟩
  intro M hne hrect
  exact ⟨numberFrom 1 (qualCells M), generate_numbering_eq hne hrect⟩

/-- C10 witness: the totality theorem applied to the concrete nonempty
rectangular matrix [[5, 7]] (entries need not be binary), hypotheses
discharged by evaluation. -/
theorem generate_numbering_totality_witness :
    generate_numbering ([] : List (List Int)) = none ∧
    ∃ l, generate_numbering [[5, 7]] = some l :=
  ⟨generate_numbering_totality.1,
   generate_numbering_totality.2 [[5, 7]] (by decide) (by decide)⟩
